import Mathlib

/-!
Shallow embedding of the two source variants of the XDR brightness menu-bar
utility and of their launch-agent lifecycle management, together with
theorems settling the specification claims.

The embedding follows the Python sources:
* `xdr-menubar-app.py` (CoreDisplay/swift variant): `set_brightness`,
  the preset callbacks, `slider_changed`, `toggle_enabled`, and the
  launch-agent helpers `is_startup_enabled` / `enable_startup` /
  `disable_startup`.
* `XDR_Brightness.py` (ddcctl variant): `_run_ddcctl`, `toggle_xdr`,
  `_launch_agent_installed`, `_install_launch_agent`,
  `_remove_launch_agent`.

External effects (subprocess invocations, alerts) are made explicit as
event lists returned alongside the new state; the exit status of the
external process is passed in as a parameter so that the code's treatment
of failures is visible in the model.  Brightness levels are rationals.
-/

namespace XDRMenubar

/-- `ControllerState` of the spec: the swift variant's mutable fields
`current_brightness` and `enabled`. -/
structure AppState where
  current_brightness : ℚ
  enabled : Bool
  deriving DecidableEq, Repr

/-- The typed error the spec prescribes for external-tool failures. -/
inductive ControlError
  | ExternalToolFailure
  deriving DecidableEq, Repr

/-- `set_brightness` from `xdr-menubar-app.py` (lines 41-62): if not
enabled, return immediately.  Otherwise spawn the swift subprocess with
the raw `level` value and set `current_brightness := level`.  The result
triple is (new state, levels passed to the external call, error raised).
The subprocess exit code is a parameter; the Python code never inspects
`process.returncode`, which the definition mirrors by not using it. -/
def set_brightness (s : AppState) (level : ℚ) (exitCode : ℤ) :
    AppState × List ℚ × Option ControlError :=
  if s.enabled then (⟨level, s.enabled⟩, [level], none)
  else (s, [], none)

/-- `set_outdoor` (line 66): `set_brightness(3.2)`. -/
def set_outdoor (s : AppState) (ec : ℤ) : AppState × List ℚ × Option ControlError :=
  set_brightness s 3.2 ec

/-- `set_bright` (line 73): `set_brightness(2.0)`. -/
def set_bright (s : AppState) (ec : ℤ) : AppState × List ℚ × Option ControlError :=
  set_brightness s 2 ec

/-- `set_normal` (line 80): `set_brightness(1.0)`. -/
def set_normal (s : AppState) (ec : ℤ) : AppState × List ℚ × Option ControlError :=
  set_brightness s 1 ec

/-- `set_dim` (line 87): `set_brightness(0.5)`. -/
def set_dim (s : AppState) (ec : ℤ) : AppState × List ℚ × Option ControlError :=
  set_brightness s 0.5 ec

/-- `slider_changed` (lines 92-99): if not enabled, return; otherwise map
the slider value `v` in [0,100] to `v / 100 * 3.2` and call
`set_brightness`. -/
def slider_changed (s : AppState) (v : ℚ) (ec : ℤ) :
    AppState × List ℚ × Option ControlError :=
  if s.enabled then set_brightness s (v / 100 * 3.2) ec
  else (s, [], none)

/-- `toggle_enabled` (lines 111-120): first `self.enabled = not
self.enabled`, then, if now disabled, `set_brightness(1.0)` (the icon and
title updates are presentation and omitted). -/
def toggle_enabled (s : AppState) (ec : ℤ) : AppState × List ℚ :=
  let s1 : AppState := ⟨s.current_brightness, !s.enabled⟩
  if s1.enabled then (s1, [])
  else
    let r := set_brightness s1 1 ec
    (r.1, r.2.1)

end XDRMenubar

namespace XDRDdcctl

/-- Configuration constant from `XDR_Brightness.py` line 21. -/
def DDCCTL_PATH : String := "/usr/local/bin/ddcctl"

/-- Configuration constant from line 22. -/
def BRIGHTNESS_XDR : String := "100"

/-- Configuration constant from line 23. -/
def BRIGHTNESS_NORMAL : String := "50"

/-- Outcome of the `subprocess.run(cmd, check=True)` invocation inside
`_run_ddcctl`: success, or a `CalledProcessError` carrying diagnostics. -/
inductive DDCOutcome
  | ok
  | err (diag : String)
  deriving DecidableEq, Repr

/-- The ddcctl variant's runtime state: just the `enabled` flag. -/
structure DDCState where
  enabled : Bool
  deriving DecidableEq, Repr

/-- The argv built in `_run_ddcctl` (line 50). -/
def ddc_cmd (enable : Bool) : List String :=
  ["sudo", DDCCTL_PATH, "-d", "1", "-b",
   if enable then BRIGHTNESS_XDR else BRIGHTNESS_NORMAL]

/-- `_run_ddcctl` (lines 47-55): run the command; on
`CalledProcessError` show an alert with the diagnostic.  Result: (alerts
shown, commands issued).  The command is issued in both outcomes (the
exception is raised by `subprocess.run` after the child exits), and no
error value is returned to the caller in either case. -/
def run_ddcctl (enable : Bool) (outcome : DDCOutcome) :
    List String × List (List String) :=
  match outcome with
  | DDCOutcome.ok => ([], [ddc_cmd enable])
  | DDCOutcome.err d => (["ddcctl failed:\n" ++ d], [ddc_cmd enable])

/-- `toggle_xdr` (lines 66-69): flip `self.enabled`, then call
`_run_ddcctl(self.enabled)` (menu refresh omitted).  Result: (new state,
alerts shown, commands issued). -/
def toggle_xdr (s : DDCState) (outcome : DDCOutcome) :
    DDCState × List String × List (List String) :=
  let s1 : DDCState := ⟨!s.enabled⟩
  let r := run_ddcctl s1.enabled outcome
  (s1, r.1, r.2)

end XDRDdcctl

namespace LaunchAgent

/-- The well-known record location, `~/Library/LaunchAgents/com.xdr.brightness.plist`
(relative to the home directory). -/
def plist_path : String := "Library/LaunchAgents/com.xdr.brightness.plist"

/-- The on-disk state relevant to the launch-agent record: the content of
the record file (if it exists) and whether its parent directory
`~/Library/LaunchAgents` exists. -/
structure FS where
  plistContent : Option String
  parentDirExists : Bool
  deriving DecidableEq, Repr

/-- External effects of the launch-agent operations. -/
inductive AgentEvent
  | mkdirParent
  | writeRecord (content : String)
  | launchctl (verb : String) (path : String)
  | unlinkRecord
  deriving DecidableEq, Repr

/-- The plist template of `enable_startup` in `xdr-menubar-app.py`
(lines 143-159), parameterised over `sys.executable` and the script
path. -/
def plist_content (executable scriptPath : String) : String :=
  "<?xml version=\"1.0\" encoding=\"UTF-8\"?>\n" ++
  "<!DOCTYPE plist PUBLIC \"-//Apple//DTD PLIST 1.0//EN\" \"http://www.apple.com/DTDs/PropertyList-1.0.dtd\">\n" ++
  "<plist version=\"1.0\">\n<dict>\n    <key>Label</key>\n    <string>com.xdr.brightness</string>\n" ++
  "    <key>ProgramArguments</key>\n    <array>\n        <string>" ++ executable ++
  "</string>\n        <string>" ++ scriptPath ++
  "</string>\n    </array>\n    <key>RunAtLoad</key>\n    <true/>\n    <key>KeepAlive</key>\n    <false/>\n</dict>\n</plist>"

/-- The plist template of `_install_launch_agent` in `XDR_Brightness.py`
(lines 85-97), parameterised over the script path. -/
def ddc_plist_content (scriptPath : String) : String :=
  "<?xml version=\"1.0\" encoding=\"UTF-8\"?>\n" ++
  "<!DOCTYPE plist PUBLIC \"-//Apple//DTD PLIST 1.0//EN\" \"http://www.apple.com/DTDs/PropertyList-1.0.dtd\">\n" ++
  "<plist version=\"1.0\">\n<dict>\n    <key>Label</key><string>com.xdr.brightness</string>\n" ++
  "    <key>ProgramArguments</key>\n    <array>\n        <string>/usr/bin/python3</string>\n        <string>" ++
  scriptPath ++
  "</string>\n    </array>\n    <key>RunAtLoad</key><true/>\n</dict>\n</plist>"

/-- `Path.write_text` semantics at the record location: overwrite the file
if the parent directory exists, otherwise fail (Python raises
`FileNotFoundError`). -/
def write_text (fs : FS) (content : String) : Option FS :=
  if fs.parentDirExists then some ⟨some content, fs.parentDirExists⟩ else none

/-- `is_startup_enabled` (lines 135-138 of `xdr-menubar-app.py`): an
uncached `Path.exists()` check of the record file. -/
def is_startup_enabled (fs : FS) : Bool :=
  fs.plistContent.isSome

/-- `_launch_agent_installed` (lines 60-61 of `XDR_Brightness.py`): the
same uncached existence check. -/
def launch_agent_installed (fs : FS) : Bool :=
  fs.plistContent.isSome

/-- `enable_startup` (lines 140-166 of `xdr-menubar-app.py`): build the
plist content, `plist_path.parent.mkdir(exist_ok=True)`, write the file,
then `launchctl load`.  Result: (new filesystem if the write succeeded,
events in order). -/
def enable_startup (fs : FS) (executable scriptPath : String) :
    Option FS × List AgentEvent :=
  let content := plist_content executable scriptPath
  let fs1 : FS := ⟨fs.plistContent, true⟩
  match write_text fs1 content with
  | some fs2 =>
      (some fs2,
       [AgentEvent.mkdirParent, AgentEvent.writeRecord content,
        AgentEvent.launchctl "load" plist_path])
  | none => (none, [AgentEvent.mkdirParent])

/-- `disable_startup` (lines 168-174 of `xdr-menubar-app.py`): if the
record exists, `launchctl unload` then `unlink`; otherwise do nothing. -/
def disable_startup (fs : FS) : FS × List AgentEvent :=
  if fs.plistContent.isSome then
    (⟨none, fs.parentDirExists⟩,
     [AgentEvent.launchctl "unload" plist_path, AgentEvent.unlinkRecord])
  else (fs, [])

/-- `_install_launch_agent` (lines 84-100 of `XDR_Brightness.py`): build
the plist content, write the file (no mkdir of the parent), then
`launchctl load`.  If the write fails, the exception propagates before
any registration. -/
def install_launch_agent (fs : FS) (scriptPath : String) :
    Option FS × List AgentEvent :=
  let content := ddc_plist_content scriptPath
  match write_text fs content with
  | some fs2 =>
      (some fs2,
       [AgentEvent.writeRecord content, AgentEvent.launchctl "load" plist_path])
  | none => (none, [])

/-- `_remove_launch_agent` (lines 102-106 of `XDR_Brightness.py`): if the
record exists, `launchctl unload` then `unlink`; otherwise do nothing. -/
def remove_launch_agent (fs : FS) : FS × List AgentEvent :=
  if fs.plistContent.isSome then
    (⟨none, fs.parentDirExists⟩,
     [AgentEvent.launchctl "unload" plist_path, AgentEvent.unlinkRecord])
  else (fs, [])

/-- Out-of-band removal of the record file by an external actor. -/
def external_delete (fs : FS) : FS :=
  ⟨none, fs.parentDirExists⟩

/-- In an event trace, no `launchctl` call occurs before the first record
write (the first of the two kinds of event to occur, if any, is the
write). -/
def no_register_before_write : List AgentEvent → Bool
  | [] => true
  | AgentEvent.launchctl _ _ :: _ => false
  | AgentEvent.writeRecord _ :: _ => true
  | _ :: rest => no_register_before_write rest

end LaunchAgent

open XDRMenubar XDRDdcctl LaunchAgent

/-- Claim C1: the spec says `setEnabled(false)` applies the safe default
level 1.0 via `setLevel` before clearing the flag, on every
enabled-to-disabled transition.  The code flips the flag first, so the
inner `set_brightness(1.0)` hits the disabled early-return: no external
call is issued and `current_brightness` is left unchanged. -/
theorem toggle_enabled_disables_without_reset (s : AppState) (ec : ℤ)
    (h : s.enabled = true) :
    toggle_enabled s ec = (⟨s.current_brightness, false⟩, []) := by
  simp [toggle_enabled, set_brightness, h]

/-- Claim C1, witness: disabling from brightness 3.2 leaves 3.2 in place
and issues no external call. -/
theorem toggle_enabled_disables_without_reset_witness :
    toggle_enabled ⟨3.2, true⟩ 0 = (⟨3.2, false⟩, []) :=
  toggle_enabled_disables_without_reset ⟨3.2, true⟩ 0 rfl

/-- Claim C2, counterexample: `set_outdoor` on an enabled controller
passes 3.2 to the external call, which is not clamped to the interval
[0,1]. -/
theorem set_outdoor_exceeds_unit_interval :
    (set_outdoor ⟨1, true⟩ 0).2.1 = [(3.2 : ℚ)] ∧ ¬ ((3.2 : ℚ) ≤ 1) := by
  constructor
  · simp [set_outdoor, set_brightness]
  · norm_num

/-- Claim C2, amended: no clamping to [0,1] is performed; the levels the
presets and the slider mapping pass to the external call lie in
[0, 3.2] (3.2 being the configured over-bright maximum, 1600 nits),
provided the slider input is in [0,100]. -/
theorem external_levels_bounded (s : AppState) (v : ℚ) (ec : ℤ)
    (h0 : 0 ≤ v) (h100 : v ≤ 100) :
    (∀ l ∈ (set_outdoor s ec).2.1, 0 ≤ l ∧ l ≤ 3.2) ∧
    (∀ l ∈ (set_bright s ec).2.1, 0 ≤ l ∧ l ≤ 3.2) ∧
    (∀ l ∈ (set_normal s ec).2.1, 0 ≤ l ∧ l ≤ 3.2) ∧
    (∀ l ∈ (set_dim s ec).2.1, 0 ≤ l ∧ l ≤ 3.2) ∧
    (∀ l ∈ (slider_changed s v ec).2.1, 0 ≤ l ∧ l ≤ 3.2) := by
  have hd0 : 0 ≤ v / 100 := by positivity
  have hd1 : v / 100 ≤ 1 := by
    rw [div_le_one (by norm_num : (0:ℚ) < 100)]
    exact h100
  cases hen : s.enabled <;>
    simp [set_outdoor, set_bright, set_normal, set_dim, slider_changed,
          set_brightness, hen] <;>
    norm_num [hd0, hd1]

/-- Claim C2, amended, witness: the level 3.2 issued by `set_outdoor` on
an enabled controller lies in the bound. -/
theorem external_levels_bounded_witness :
    (0 : ℚ) ≤ 3.2 ∧ (3.2 : ℚ) ≤ 3.2 :=
  (external_levels_bounded ⟨1, true⟩ 50 0 (by norm_num) (by norm_num)).1
    3.2 (by simp [set_outdoor, set_brightness])

/-- Claim C3, counterexample: `set_brightness(0.32)` on an enabled
controller passes the raw value 0.32 to the external call, not 32 on a
0-100 scale; in this code 1.0 corresponds to the 500-nit normal preset,
not to 1600 nits. -/
theorem set_brightness_scenario_raw_level :
    (set_brightness ⟨1, true⟩ (32/100) 0).2.1 = [(32/100 : ℚ)] ∧
    ((32 : ℚ) / 100 ≠ 32) := by
  constructor
  · simp [set_brightness]
  · norm_num

/-- Claim C3, amended: `set_brightness(L)` while enabled sets
`current_brightness := L` and issues exactly one external call carrying
the level `L` itself (identity mapping onto the hardware scale). -/
theorem set_brightness_enabled_sets_level (s : AppState) (L : ℚ) (ec : ℤ)
    (h : s.enabled = true) :
    (set_brightness s L ec).1 = ⟨L, true⟩ ∧
    (set_brightness s L ec).2.1 = [L] := by
  simp [set_brightness, h]

/-- Claim C3, amended, witness at level 0.32. -/
theorem set_brightness_enabled_sets_level_witness :
    (set_brightness ⟨1, true⟩ (32/100) 0).1 = ⟨32/100, true⟩ ∧
    (set_brightness ⟨1, true⟩ (32/100) 0).2.1 = [(32/100 : ℚ)] :=
  set_brightness_enabled_sets_level ⟨1, true⟩ (32/100) 0 rfl

/-- Claim C4: `set_brightness` while disabled is a no-op returning
success: the state is unchanged, no external call is made, and no error
is produced. -/
theorem set_brightness_disabled_noop (s : AppState) (L : ℚ) (ec : ℤ)
    (h : s.enabled = false) :
    set_brightness s L ec = (s, [], none) := by
  simp [set_brightness, h]

/-- Claim C4, witness: setting 2.0 while disabled changes nothing. -/
theorem set_brightness_disabled_noop_witness :
    set_brightness ⟨1, false⟩ 2 0 = (⟨1, false⟩, [], none) :=
  set_brightness_disabled_noop ⟨1, false⟩ 2 0 rfl

/-- Claim C5, counterexample: with a non-zero exit code (1) from the
external process, `set_brightness` raises no `ControlError`, reports
nothing to the caller, and updates `current_brightness` anyway — the
failure is silently swallowed. -/
theorem set_brightness_ignores_exit_code :
    set_brightness ⟨1, true⟩ (1/2) 1 = (⟨1/2, true⟩, [1/2], none) := by
  simp [set_brightness]

/-- Claim C5, amended: the swift-variant `set_brightness` never returns a
typed error whatever the external exit code; the ddcctl variant shows an
alert carrying the diagnostic on a `CalledProcessError` but likewise
returns no typed error to its caller. -/
theorem external_failures_produce_no_error (s : AppState) (L : ℚ) (ec : ℤ)
    (en : Bool) (d : String) :
    (set_brightness s L ec).2.2 = none ∧
    (run_ddcctl en (DDCOutcome.err d)).1 = ["ddcctl failed:\n" ++ d] ∧
    (run_ddcctl en (DDCOutcome.err d)).2 = [ddc_cmd en] := by
  refine ⟨?_, rfl, rfl⟩
  cases hen : s.enabled <;> simp [set_brightness, hen]

/-- Claim C6: `is_startup_enabled` is an uncached existence check of the
on-disk record: after `enable_startup`, it reports true, and after an
out-of-band deletion of the record file it reports false (in both
variants). -/
theorem enable_then_external_delete (fs : FS) (e s : String) :
    ∃ fs1, (enable_startup fs e s).1 = some fs1 ∧
      is_startup_enabled fs1 = true ∧
      is_startup_enabled (external_delete fs1) = false ∧
      launch_agent_installed (external_delete fs1) = false := by
  refine ⟨⟨some (plist_content e s), true⟩, ?_, rfl, rfl, rfl⟩
  simp [enable_startup, write_text]

/-- Claim C7: removing when no record exists is a no-op success in both
variants, and a second remove right after a first one is always a no-op
(remove is idempotent). -/
theorem remove_noop_when_not_installed (fs : FS) :
    (is_startup_enabled fs = false →
      disable_startup fs = (fs, []) ∧ remove_launch_agent fs = (fs, [])) ∧
    disable_startup (disable_startup fs).1 = ((disable_startup fs).1, []) ∧
    remove_launch_agent (remove_launch_agent fs).1 =
      ((remove_launch_agent fs).1, []) := by
  obtain ⟨c, p⟩ := fs
  cases c <;>
    simp [is_startup_enabled, disable_startup, remove_launch_agent]

/-- Claim C7, witness: removing on a never-installed filesystem does
nothing and reports no error. -/
theorem remove_noop_when_not_installed_witness :
    disable_startup ⟨none, true⟩ = (⟨none, true⟩, []) ∧
    remove_launch_agent ⟨none, true⟩ = (⟨none, true⟩, []) :=
  (remove_noop_when_not_installed ⟨none, true⟩).1 rfl

/-- Claim C8: install is idempotent in both variants — a second install
succeeds and overwrites, leaving exactly the same single on-disk record,
with the installed check reporting true. -/
theorem install_idempotent (fs : FS) (e s scr : String) :
    (∃ fs1 fs2, (enable_startup fs e s).1 = some fs1 ∧
      (enable_startup fs1 e s).1 = some fs2 ∧ fs2 = fs1 ∧
      is_startup_enabled fs1 = true ∧
      fs1.plistContent = some (plist_content e s)) ∧
    (fs.parentDirExists = true →
      ∃ g1 g2, (install_launch_agent fs scr).1 = some g1 ∧
        (install_launch_agent g1 scr).1 = some g2 ∧ g2 = g1 ∧
        launch_agent_installed g1 = true) := by
  constructor
  · refine ⟨⟨some (plist_content e s), true⟩, ⟨some (plist_content e s), true⟩,
      ?_, ?_, rfl, rfl, rfl⟩ <;> simp [enable_startup, write_text]
  · intro hp
    refine ⟨⟨some (ddc_plist_content scr), true⟩,
      ⟨some (ddc_plist_content scr), true⟩, ?_, ?_, rfl, rfl⟩ <;>
      simp [install_launch_agent, write_text, hp]

/-- Claim C8, witness: double install starting from an empty
LaunchAgents directory. -/
theorem install_idempotent_witness :
    ∃ g1 g2, (install_launch_agent ⟨none, true⟩ "app.py").1 = some g1 ∧
      (install_launch_agent g1 "app.py").1 = some g2 ∧ g2 = g1 ∧
      launch_agent_installed g1 = true :=
  (install_idempotent ⟨none, true⟩ "py" "app.py" "app.py").2 rfl

/-- Claim C9, counterexample: the ddcctl-variant install with the parent
directory absent does not create the directory and does not serialize the
record — the write fails and nothing is registered, contradicting
"every install call first serializes the record (creating parent
directories if absent) and only then registers". -/
theorem install_launch_agent_missing_parent :
    install_launch_agent ⟨none, false⟩ "app.py" = (none, []) := by
  simp [install_launch_agent, write_text]

/-- Claim C9, amended: both install variants write the record strictly
before the `launchctl load` registration and never register before
writing; the rumps variant additionally creates the parent directory
first, while the ddcctl variant only writes-then-registers when the
parent directory already exists (its write fails otherwise, with no
registration issued). -/
theorem install_write_then_register (fs : FS) (e s scr : String) :
    (enable_startup fs e s).2 =
      [AgentEvent.mkdirParent, AgentEvent.writeRecord (plist_content e s),
       AgentEvent.launchctl "load" plist_path] ∧
    no_register_before_write (enable_startup fs e s).2 = true ∧
    no_register_before_write (install_launch_agent fs scr).2 = true ∧
    (fs.parentDirExists = true →
      (install_launch_agent fs scr).2 =
        [AgentEvent.writeRecord (ddc_plist_content scr),
         AgentEvent.launchctl "load" plist_path]) := by
  obtain ⟨c, p⟩ := fs
  cases p <;>
    simp [enable_startup, install_launch_agent, write_text,
          no_register_before_write]

/-- Claim C9, amended, witness with the parent directory present. -/
theorem install_write_then_register_witness :
    (install_launch_agent ⟨none, true⟩ "app.py").2 =
      [AgentEvent.writeRecord (ddc_plist_content "app.py"),
       AgentEvent.launchctl "load" plist_path] :=
  (install_write_then_register ⟨none, true⟩ "py" "app.py" "app.py").2.2.2 rfl

/-- Claim C10: `toggle_xdr` flips the enabled flag before invoking the
external tool (the brightness argument reflects the new flag value) and
never reverts it: after a failed invocation the state still holds the
requested new value. -/
theorem toggle_xdr_flips_state_unconditionally (s : DDCState) (d : String) :
    (toggle_xdr s (DDCOutcome.err d)).1 = ⟨!s.enabled⟩ ∧
    (toggle_xdr s (DDCOutcome.err d)).2.2 = [ddc_cmd (!s.enabled)] ∧
    (∀ o, (toggle_xdr s o).1 = ⟨!s.enabled⟩) := by
  refine ⟨rfl, rfl, ?_⟩
  intro o
  cases o <;> rfl
